import Mathlib

/-!
Shallow embedding of the tradeco-pilot quantitative signal pipeline
(backend/app/core): the multi-factor signal scorer, the Bayesian
probability engine, the Monte-Carlo profit probability, the backtest
validation gate, the signal-generation pipeline, and the strategy
rule executor.  Machine floats are modelled as rationals; Python's
round(x, n) (round-half-to-even) is modelled exactly; dictionaries
become association lists with explicit defaults; randomness and
external collaborators (database rows, the Monte-Carlo draws, the
LLM enrichment) become explicit parameters.
-/

namespace Tradeco

/-- Python's builtin round on a rational: round half to even. -/
def roundHalfEven (q : ℚ) : ℤ :=
  if Int.fract q = 1/2 then (if Even ⌊q⌋ then ⌊q⌋ else ⌊q⌋ + 1) else round q

/-- Python round(x, 1). -/
def round1 (q : ℚ) : ℚ := (roundHalfEven (q * 10) : ℚ) / 10

/-- Python round(x, 2). -/
def round2 (q : ℚ) : ℚ := (roundHalfEven (q * 100) : ℚ) / 100

/-- Python round(x, 5). -/
def round5 (q : ℚ) : ℚ := (roundHalfEven (q * 100000) : ℚ) / 100000

lemma roundHalfEven_ge (a : ℤ) (q : ℚ) (h : (a : ℚ) ≤ q) : a ≤ roundHalfEven q := by
  unfold roundHalfEven
  have hfl : a ≤ ⌊q⌋ := Int.le_floor.mpr h
  split_ifs with h1 h2
  · exact hfl
  · omega
  · rw [round_eq]
    refine Int.le_floor.mpr ?_
    linarith

lemma roundHalfEven_le (b : ℤ) (q : ℚ) (h : q ≤ (b : ℚ)) : roundHalfEven q ≤ b := by
  unfold roundHalfEven
  split_ifs with h1 h2
  · exact le_trans (Int.floor_le_floor h) (by rw [Int.floor_intCast])
  · have hq : q = ⌊q⌋ + 1/2 := by
      have := Int.fract_add_floor q
      rw [h1] at this
      linarith
    have : (⌊q⌋ : ℚ) < b := by rw [hq] at h; linarith
    exact_mod_cast Int.add_one_le_iff.mpr (by exact_mod_cast this)
  · rw [round_eq]
    have : q + 1/2 ≤ (b : ℚ) + 1/2 := by linarith
    calc ⌊q + 1/2⌋ ≤ ⌊(b : ℚ) + 1/2⌋ := Int.floor_le_floor this
      _ = b := by
          rw [add_comm, Int.floor_add_int]
          norm_num

lemma round1_bounds (q : ℚ) (a b : ℤ) (ha : (a : ℚ) ≤ q) (hb : q ≤ (b : ℚ)) :
    (a : ℚ) ≤ round1 q ∧ round1 q ≤ (b : ℚ) := by
  unfold round1
  constructor
  · rw [le_div_iff₀ (by norm_num : (0:ℚ) < 10)]
    have := roundHalfEven_ge (a * 10) (q * 10) (by push_cast; nlinarith)
    exact_mod_cast this
  · rw [div_le_iff₀ (by norm_num : (0:ℚ) < 10)]
    have := roundHalfEven_le (b * 10) (q * 10) (by push_cast; nlinarith)
    exact_mod_cast this

lemma round2_bounds (q : ℚ) (a b : ℤ) (ha : (a : ℚ) ≤ q) (hb : q ≤ (b : ℚ)) :
    (a : ℚ) ≤ round2 q ∧ round2 q ≤ (b : ℚ) := by
  unfold round2
  constructor
  · rw [le_div_iff₀ (by norm_num : (0:ℚ) < 100)]
    have := roundHalfEven_ge (a * 100) (q * 100) (by push_cast; nlinarith)
    exact_mod_cast this
  · rw [div_le_iff₀ (by norm_num : (0:ℚ) < 100)]
    have := roundHalfEven_le (b * 100) (q * 100) (by push_cast; nlinarith)
    exact_mod_cast this

/-- Python dict.get(key, default) over an association list. -/
def lookupD (m : List (String × ℚ)) (k : String) (d : ℚ) : ℚ := (m.lookup k).getD d

/-! ## SignalScorer (app/core/scoring/signal_scorer.py) -/

/-- SignalScorer.WEIGHTS: the default factor weights. -/
def WEIGHTS : List (String × ℚ) :=
  [("probability_score", 35/100), ("backtest_performance", 25/100),
   ("market_regime_match", 20/100), ("risk_reward_ratio", 15/100),
   ("volatility_match", 5/100)]

/-- SignalScorer.__init__: Python's `if weights:` is falsy for both None and
the empty dict, in which case the default WEIGHTS are installed; a truthy
(non-empty) custom map is validated against the 0.01 sum tolerance. -/
def scorer_init_weights (weights : Option (List (String × ℚ))) :
    Except String (List (String × ℚ)) :=
  match weights with
  | none => Except.ok WEIGHTS
  | some ws =>
      if ws.isEmpty then Except.ok WEIGHTS
      else if |(ws.map Prod.snd).sum - 1| > 1/100 then
        Except.error "Weights must sum to 1.0"
      else Except.ok ws

/-- SignalScorer._calculate_performance_factor. -/
def calculate_performance_factor (metrics : List (String × ℚ)) : ℚ :=
  let win_rate := lookupD metrics "win_rate" 50
  let sharpe := lookupD metrics "sharpe_ratio" 0
  let win_component := win_rate / 100 * 10
  let sharpe_component := min (sharpe / 3) 1 * 10
  let performance := (win_component + sharpe_component) / 2
  max 0 (min 10 performance)

/-- SignalScorer._calculate_regime_factor. -/
def calculate_regime_factor (current_regime : String)
    (regime_performance : List (String × ℚ)) : ℚ :=
  let regime_win_rate := lookupD regime_performance current_regime 50
  max 0 (min 10 (regime_win_rate / 100 * 10))

/-- SignalScorer._calculate_risk_reward_factor. -/
def calculate_risk_reward_factor (rr_ratio : ℚ) : ℚ :=
  if 3 ≤ rr_ratio then 10
  else if 2 ≤ rr_ratio then 7 + (rr_ratio - 2) * 3
  else if 1 ≤ rr_ratio then 3 + (rr_ratio - 1) * 4
  else max 0 (rr_ratio * 3)

/-- The scorer's ordinal volatility scale (`volatility_scale.get(s, 3)`). -/
def volatility_scale (s : String) : ℤ :=
  if s = "very_low" then 1
  else if s = "low" then 2
  else if s = "normal" then 3
  else if s = "high" then 4
  else if s = "very_high" then 5
  else 3

/-- SignalScorer._calculate_volatility_factor. -/
def calculate_volatility_factor (current optimal : String) : ℚ :=
  let difference := |volatility_scale current - volatility_scale optimal|
  if difference = 0 then 10
  else if difference = 1 then 7
  else if difference = 2 then 5
  else 3

/-- SignalScorer.calculate_signal_score.  The weighted sum is clamped to
[0,10] and rounded to one decimal; a missing weight key (the only failure
the surrounding try/except can see on well-typed numeric input) produces
the neutral score 5.0. -/
def calculate_signal_score (weights : List (String × ℚ)) (probability_score : ℚ)
    (backtest_metrics : List (String × ℚ)) (market_regime : String)
    (strategy_regime_performance : List (String × ℚ)) (risk_reward_ratio : ℚ)
    (current_volatility optimal_volatility : String) : ℚ :=
  match weights.lookup "probability_score", weights.lookup "backtest_performance",
      weights.lookup "market_regime_match", weights.lookup "risk_reward_ratio",
      weights.lookup "volatility_match" with
  | some w1, some w2, some w3, some w4, some w5 =>
      let prob_factor := probability_score / 100 * 10
      let perf_factor := calculate_performance_factor backtest_metrics
      let regime_factor := calculate_regime_factor market_regime strategy_regime_performance
      let rr_factor := calculate_risk_reward_factor risk_reward_ratio
      let vol_factor := calculate_volatility_factor current_volatility optimal_volatility
      let score := prob_factor * w1 + perf_factor * w2 + regime_factor * w3 +
        rr_factor * w4 + vol_factor * w5
      round1 (max 0 (min 10 score))
  | _, _, _, _, _ => 5

/-! ## BayesianProbability (app/core/probability/bayesian.py) -/

/-- A market-conditions dict: the keys the engine reads, each optional. -/
structure MarketConditions where
  regime : Option String
  volatility : Option String

/-- A historical-performance dict, split into its numeric rate entries and
the optional string-valued optimal_volatility entry. -/
structure HistoricalPerformance where
  rates : List (String × ℚ)
  optimal_volatility : Option String

/-- BayesianProbability._calculate_likelihood. -/
def calculate_likelihood (current_conditions : MarketConditions)
    (historical_performance : HistoricalPerformance) (outcome : String) : ℚ :=
  let regime := current_conditions.regime.getD "unknown"
  let regime_stats :=
    lookupD historical_performance.rates (regime ++ "_" ++ outcome ++ "_rate") (1/2)
  let volatility := current_conditions.volatility.getD "normal"
  let optimal_volatility := historical_performance.optimal_volatility.getD "normal"
  let likelihood :=
    if volatility = optimal_volatility then regime_stats * (12/10)
    else regime_stats * (8/10)
  max (1/10) (min (9/10) likelihood)

/-- BayesianProbability.calculate_posterior_probability. -/
def calculate_posterior_probability (prior_win_rate : ℚ)
    (current_conditions : MarketConditions)
    (historical_performance : HistoricalPerformance) : ℚ :=
  let p_success := prior_win_rate / 100
  let p_conditions_given_success :=
    calculate_likelihood current_conditions historical_performance "success"
  let p_conditions_given_failure :=
    calculate_likelihood current_conditions historical_performance "failure"
  let p_conditions :=
    p_conditions_given_success * p_success +
    p_conditions_given_failure * (1 - p_success)
  if p_conditions = 0 then prior_win_rate
  else max 0 (min 100 (p_conditions_given_success * p_success / p_conditions * 100))

/-! ## MonteCarloSimulator (app/core/probability/monte_carlo.py)

The random trade draws are an oracle: the list of final capitals produced
by the simulation loop (one entry per simulation run). -/

/-- probability_of_profit as computed from the simulated final capitals:
`round(np.sum(final_capitals > initial_capital) / n_simulations * 100, 2)`. -/
def probability_of_profit (final_capitals : List ℚ) (initial_capital : ℚ)
    (n_simulations : ℕ) : ℚ :=
  round2 ((final_capitals.countP (fun c => decide (initial_capital < c)) : ℚ) /
    (n_simulations : ℚ) * 100)

/-! ## Settings (app/config.py) and SignalPipeline (app/core/signals/pipeline.py) -/

/-- The configurable thresholds of app/config.py, with their defaults
(MIN_SHARPE stands for the config key holding the Sharpe minimum). -/
structure Settings where
  MIN_SIGNAL_SCORE : ℚ := 7
  MIN_PROBABILITY : ℚ := 60
  MIN_BACKTEST_TRADES : ℤ := 100
  MIN_WIN_RATE : ℚ := 55
  MIN_SHARPE : ℚ := 3/2
  MAX_DRAWDOWN : ℚ := 20

/-- The most recent BacktestResult row, as read by the pipeline. -/
structure BacktestResult where
  total_trades : ℤ
  win_rate : ℚ
  sharpe_ratio : ℚ
  max_drawdown : ℚ
  profit_factor : ℚ

/-- SignalPipeline._validate_backtest (the BacktestGate). -/
def validate_backtest (s : Settings) (backtest : BacktestResult) : Bool :=
  if backtest.total_trades < s.MIN_BACKTEST_TRADES then false
  else if backtest.win_rate < s.MIN_WIN_RATE then false
  else if backtest.sharpe_ratio < s.MIN_SHARPE then false
  else if backtest.max_drawdown > s.MAX_DRAWDOWN then false
  else true

/-- The fixed historical_performance table the pipeline hands to the
Bayesian engine (placeholders in _calculate_probability). -/
def pipeline_historical_performance : HistoricalPerformance :=
  { rates := [("trending_success_rate", 7/10), ("ranging_success_rate", 1/2)],
    optimal_volatility := some "normal" }

/-- SignalPipeline._calculate_probability: 60% Bayesian posterior plus 40%
Monte-Carlo profit probability, rounded to two decimals.  The Monte-Carlo
run is represented by its list of simulated final capitals (initial capital
10000 as in the source). -/
def pipeline_calculate_probability (backtest : BacktestResult)
    (market_data : Option MarketConditions) (mc_final_capitals : List ℚ)
    (n_simulations : ℕ) : ℚ :=
  let prior_win_rate := backtest.win_rate
  let current_conditions := market_data.getD ⟨none, none⟩
  let bayesian_prob := calculate_posterior_probability prior_win_rate
    current_conditions pipeline_historical_performance
  let mc_prob := probability_of_profit mc_final_capitals 10000 n_simulations
  round2 (bayesian_prob * (6/10) + mc_prob * (4/10))

/-- The fixed regime_performance table in SignalPipeline._calculate_signal_score. -/
def pipeline_regime_performance : List (String × ℚ) :=
  [("trending", 65), ("ranging", 55), ("unknown", 50)]

/-- SignalPipeline._calculate_signal_score: builds the metrics dict from the
backtest row and calls the module-level scorer (default WEIGHTS). -/
def pipeline_calculate_signal_score (probability : ℚ) (backtest : BacktestResult)
    (market_data : Option MarketConditions) (risk_reward : ℚ) : ℚ :=
  let backtest_metrics :=
    [("win_rate", backtest.win_rate), ("sharpe_ratio", backtest.sharpe_ratio),
     ("profit_factor", backtest.profit_factor)]
  let market_regime :=
    match market_data with
    | some md => md.regime.getD "unknown"
    | none => "unknown"
  calculate_signal_score WEIGHTS probability backtest_metrics market_regime
    pipeline_regime_performance risk_reward "normal" "normal"

/-- The pipeline's risk/reward ratio:
`abs((tp - entry) / (entry - sl)) if entry != sl else 0`. -/
def pipeline_risk_reward (entry_price stop_loss take_profit : ℚ) : ℚ :=
  if entry_price ≠ stop_loss then
    |(take_profit - entry_price) / (entry_price - stop_loss)|
  else 0

/-- The Gemini enrichment response (external collaborator). -/
structure GeminiAnalysis where
  confidence_level : String
  risk_rating : String
  trade_explanation : String
  position_sizing : ℚ

/-- The signal dict assembled at step 8 of the pipeline (the fields whose
values are decided by this core). -/
structure SignalData where
  strategy_id : String
  symbol : String
  direction : String
  entry_price : ℚ
  stop_loss : ℚ
  take_profit : ℚ
  probability_score : ℚ
  signal_score : ℚ
  confidence_level : String
  risk_rating : String

/-- SignalPipeline.generate_signal.  The database fetches become the
optional `strategy_row` (only its existence matters to control flow) and
`backtest_row` parameters; the Monte-Carlo randomness is the oracle list of
final capitals; the Gemini call is the `gemini` parameter.  Returns the
stored signal dict, or none when any gate rejects. -/
def generate_signal (s : Settings) (strategy_id symbol direction : String)
    (entry_price stop_loss take_profit : ℚ)
    (market_data : Option MarketConditions)
    (strategy_row : Option String) (backtest_row : Option BacktestResult)
    (mc_final_capitals : List ℚ) (n_simulations : ℕ)
    (gemini : GeminiAnalysis) : Option SignalData :=
  match strategy_row with
  | none => none
  | some _ =>
    match backtest_row with
    | none => none
    | some backtest =>
      if ¬ validate_backtest s backtest then none
      else
        let probability_score :=
          pipeline_calculate_probability backtest market_data mc_final_capitals n_simulations
        let risk_reward_ratio := pipeline_risk_reward entry_price stop_loss take_profit
        let signal_score :=
          pipeline_calculate_signal_score probability_score backtest market_data risk_reward_ratio
        if signal_score < s.MIN_SIGNAL_SCORE then none
        else if probability_score < s.MIN_PROBABILITY then none
        else some
          { strategy_id := strategy_id, symbol := symbol, direction := direction,
            entry_price := entry_price, stop_loss := stop_loss,
            take_profit := take_profit, probability_score := probability_score,
            signal_score := signal_score,
            confidence_level := gemini.confidence_level,
            risk_rating := gemini.risk_rating }

/-! ## StrategyExecutor (app/core/strategies/executor.py)

`datetime.utcnow().hour` is the explicit `hour` parameter; the market-data
dict becomes a structure whose `ema` field is the partial map underlying
the string-keyed `ema_{period}` indicator entries. -/

/-- One rule dict: `rule.get('type')`, `rule.get('condition')`,
`rule.get('parameters', {})`. -/
structure Rule where
  type : Option String
  condition : Option String
  parameters : List (String × ℚ)

/-- The indicator snapshot: `indicators.get('rsi')` and the
`ema_{period}` entries. -/
structure Indicators where
  rsi : Option ℚ
  ema : ℚ → Option ℚ

/-- The market-data dict fields the executor reads. -/
structure MarketData where
  symbol : Option String
  close : Option ℚ
  indicators : Indicators

/-- A parsed strategy dict: `is_active` (absent means active),
`config.rules`, and `config.risk_management`. -/
structure Strategy where
  id : String
  is_active : Option Bool
  rules : List Rule
  stop_loss_pips : Option ℚ
  take_profit_pips : Option ℚ

/-- StrategyExecutor._check_rsi. -/
def check_rsi (data : MarketData) (params : List (String × ℚ)) (mode : String) : Bool :=
  match data.indicators.rsi with
  | none => false
  | some rsi =>
      let threshold := lookupD params "threshold" (if mode = "oversold" then 30 else 70)
      if mode = "oversold" then decide (rsi < threshold) else decide (threshold < rsi)

/-- StrategyExecutor._check_above_ema. -/
def check_above_ema (data : MarketData) (params : List (String × ℚ)) : Bool :=
  let period := lookupD params "period" 200
  match data.close, data.indicators.ema period with
  | some price, some ema => decide (ema < price)
  | _, _ => false

/-- StrategyExecutor._check_liquidity_sweep (stubbed to True in the source). -/
def check_liquidity_sweep (_data : MarketData) (_params : List (String × ℚ)) : Bool :=
  true

/-- StrategyExecutor._check_order_block (stubbed to True in the source). -/
def check_order_block (_data : MarketData) (_params : List (String × ℚ)) : Bool :=
  true

/-- StrategyExecutor._check_session: the sessions table knows london,
new_york and asia; any other session name (including a missing condition)
returns True. -/
def check_session (hour : ℤ) (session_name : Option String) : Bool :=
  if session_name = some "london" then decide (7 ≤ hour ∧ hour < 16)
  else if session_name = some "new_york" then decide (13 ≤ hour ∧ hour < 22)
  else if session_name = some "asia" then decide (0 ≤ hour ∧ hour < 9)
  else true

/-- StrategyExecutor._evaluate_single_rule: dispatch on (type, condition). -/
def evaluate_single_rule (rule : Rule) (market_data : MarketData) (hour : ℤ) : Bool :=
  if rule.type = some "price_action" then
    if rule.condition = some "liquidity_sweep" then
      check_liquidity_sweep market_data rule.parameters
    else if rule.condition = some "order_block" then
      check_order_block market_data rule.parameters
    else false
  else if rule.type = some "technical" then
    if rule.condition = some "rsi_oversold" then
      check_rsi market_data rule.parameters "oversold"
    else if rule.condition = some "rsi_overbought" then
      check_rsi market_data rule.parameters "overbought"
    else if rule.condition = some "above_ema" then
      check_above_ema market_data rule.parameters
    else false
  else if rule.type = some "session" then
    check_session hour rule.condition
  else false

/-- StrategyExecutor._evaluate_rules: an empty list fails; otherwise all
rules must pass (AND semantics). -/
def evaluate_rules (rules : List Rule) (market_data : MarketData) (hour : ℤ) : Bool :=
  if rules.isEmpty then false
  else rules.all (fun r => evaluate_single_rule r market_data hour)

/-- The candidate signal dict built by StrategyExecutor._generate_signal. -/
structure SignalCandidate where
  strategy_id : String
  symbol : String
  direction : String
  entry_price : ℚ
  stop_loss : ℚ
  take_profit : ℚ

/-- StrategyExecutor._generate_signal. -/
def executor_generate_signal (strategy : Strategy) (market_data : MarketData) :
    SignalCandidate :=
  let symbol := market_data.symbol.getD "UNKNOWN"
  let price := market_data.close.getD 0
  let sl_pips := strategy.stop_loss_pips.getD 20
  let tp_pips := strategy.take_profit_pips.getD 40
  let pip_value : ℚ := if (symbol.splitOn "JPY").length = 1 then 1/10000 else 1/100
  { strategy_id := strategy.id, symbol := symbol, direction := "BUY",
    entry_price := price,
    stop_loss := round5 (price - sl_pips * pip_value),
    take_profit := round5 (price + tp_pips * pip_value) }

/-- StrategyExecutor.execute. -/
def execute (strategy : Strategy) (market_data : MarketData) (hour : ℤ) :
    Option SignalCandidate :=
  if ¬ (strategy.is_active.getD true) then none
  else if ¬ evaluate_rules strategy.rules market_data hour then none
  else some (executor_generate_signal strategy market_data)

/-! ## Helper lemmas -/

lemma calculate_likelihood_mem (c : MarketConditions) (h : HistoricalPerformance)
    (outcome : String) :
    1/10 ≤ calculate_likelihood c h outcome ∧ calculate_likelihood c h outcome ≤ 9/10 := by
  unfold calculate_likelihood
  refine ⟨le_max_left _ _, max_le (by norm_num) (min_le_left _ _)⟩

lemma calculate_posterior_probability_mem (prior : ℚ) (c : MarketConditions)
    (h : HistoricalPerformance) (h0 : 0 ≤ prior) (h100 : prior ≤ 100) :
    0 ≤ calculate_posterior_probability prior c h ∧
      calculate_posterior_probability prior c h ≤ 100 := by
  simp only [calculate_posterior_probability]
  split_ifs
  · exact ⟨h0, h100⟩
  · exact ⟨le_max_left _ _, max_le (by norm_num) (min_le_left _ _)⟩

lemma probability_of_profit_mem (caps : List ℚ) (init : ℚ) (n : ℕ)
    (hlen : caps.length = n) (hn : 0 < n) :
    0 ≤ probability_of_profit caps init n ∧ probability_of_profit caps init n ≤ 100 := by
  unfold probability_of_profit
  have hcount : caps.countP (fun c => decide (init < c)) ≤ n := hlen ▸ List.countP_le_length _
  have hnq : (0:ℚ) < (n:ℚ) := by exact_mod_cast hn
  have h1 : (0:ℚ) ≤ (caps.countP (fun c => decide (init < c)) : ℚ) / (n:ℚ) * 100 := by
    positivity
  have h2 : (caps.countP (fun c => decide (init < c)) : ℚ) / (n:ℚ) * 100 ≤ 100 := by
    have : (caps.countP (fun c => decide (init < c)) : ℚ) / (n:ℚ) ≤ 1 := by
      rw [div_le_one hnq]
      exact_mod_cast hcount
    nlinarith
  have := round2_bounds _ 0 100 (by exact_mod_cast h1) (by exact_mod_cast h2)
  exact_mod_cast this

lemma round1_mem_0_10 (q : ℚ) (h0 : 0 ≤ q) (h1 : q ≤ 10) :
    0 ≤ round1 q ∧ round1 q ≤ 10 := by
  have hb := round1_bounds q 0 10 (by exact_mod_cast h0) (by exact_mod_cast h1)
  exact ⟨by exact_mod_cast hb.1, by exact_mod_cast hb.2⟩

lemma evaluate_rules_false_of_mem (rules : List Rule) (md : MarketData) (hour : ℤ)
    (r : Rule) (hr : r ∈ rules) (hf : evaluate_single_rule r md hour = false) :
    evaluate_rules rules md hour = false := by
  unfold evaluate_rules
  split_ifs with he
  · rfl
  · rw [List.all_eq_false]
    exact ⟨r, hr, by simp [hf]⟩

/-! ## Claim theorems -/

/-- C7: the BacktestGate (SignalPipeline._validate_backtest) passes a
summary iff total trades, win rate and Sharpe are at least their configured
minimums and max drawdown is at most the configured maximum, all four
conjunctive with inclusive boundaries; a summary with total_trades exactly
one below the minimum is rejected, and one exactly at the minimum with the
other conditions passing is accepted. -/
theorem validate_backtest_spec (s : Settings) (b : BacktestResult) :
    (validate_backtest s b = true ↔
      (s.MIN_BACKTEST_TRADES ≤ b.total_trades ∧ s.MIN_WIN_RATE ≤ b.win_rate ∧
       s.MIN_SHARPE ≤ b.sharpe_ratio ∧ b.max_drawdown ≤ s.MAX_DRAWDOWN))
    ∧ (b.total_trades = s.MIN_BACKTEST_TRADES - 1 → validate_backtest s b = false)
    ∧ (b.total_trades = s.MIN_BACKTEST_TRADES ∧ s.MIN_WIN_RATE ≤ b.win_rate ∧
       s.MIN_SHARPE ≤ b.sharpe_ratio ∧ b.max_drawdown ≤ s.MAX_DRAWDOWN →
       validate_backtest s b = true) := by
  have hiff : validate_backtest s b = true ↔
      (s.MIN_BACKTEST_TRADES ≤ b.total_trades ∧ s.MIN_WIN_RATE ≤ b.win_rate ∧
       s.MIN_SHARPE ≤ b.sharpe_ratio ∧ b.max_drawdown ≤ s.MAX_DRAWDOWN) := by
    unfold validate_backtest
    split_ifs with h1 h2 h3 h4
    · simp only [Bool.false_eq_true, false_iff]
      rintro ⟨hA, -, -, -⟩; omega
    · simp only [Bool.false_eq_true, false_iff]
      rintro ⟨-, hB, -, -⟩; linarith
    · simp only [Bool.false_eq_true, false_iff]
      rintro ⟨-, -, hC, -⟩; linarith
    · simp only [Bool.false_eq_true, false_iff]
      rintro ⟨-, -, -, hD⟩; linarith
    · simp only [true_iff]
      exact ⟨by omega, by linarith, by linarith, by linarith⟩
  refine ⟨hiff, fun h => ?_, fun h => hiff.mpr ⟨by omega, h.2.1, h.2.2.1, h.2.2.2⟩⟩
  rcases Bool.eq_false_or_eq_true (validate_backtest s b) with ht | hf
  · exact absurd (hiff.mp ht).1 (by omega)
  · exact hf

/-- C7 witness: at the default settings (minimum 100 trades), a summary
with 99 trades is rejected and one with 100 trades and passing metrics is
accepted. -/
theorem validate_backtest_spec_witness :
    validate_backtest {} ⟨99, 60, 2, 10, 2⟩ = false ∧
      validate_backtest {} ⟨100, 60, 2, 10, 2⟩ = true := by
  constructor
  · exact (validate_backtest_spec {} ⟨99, 60, 2, 10, 2⟩).2.1 (by norm_num)
  · exact (validate_backtest_spec {} ⟨100, 60, 2, 10, 2⟩).2.2
      ⟨by norm_num, by norm_num, by norm_num, by norm_num⟩

/-- C8: the risk/reward factor is the stated piecewise function of the
ratio, it is monotone, and it maps 1.0 to 3.0, 2.0 to 7.0, 3.0 to 10.0,
0.5 to 1.5 and 4.0 to 10.0. -/
theorem risk_reward_factor_spec :
    Monotone calculate_risk_reward_factor
    ∧ (∀ r : ℚ, 3 ≤ r → calculate_risk_reward_factor r = 10)
    ∧ (∀ r : ℚ, 2 ≤ r → r < 3 → calculate_risk_reward_factor r = 7 + (r - 2) * 3)
    ∧ (∀ r : ℚ, 1 ≤ r → r < 2 → calculate_risk_reward_factor r = 3 + (r - 1) * 4)
    ∧ (∀ r : ℚ, r < 1 → calculate_risk_reward_factor r = max 0 (r * 3))
    ∧ calculate_risk_reward_factor 1 = 3 ∧ calculate_risk_reward_factor 2 = 7
    ∧ calculate_risk_reward_factor 3 = 10
    ∧ calculate_risk_reward_factor (1/2) = 3/2
    ∧ calculate_risk_reward_factor 4 = 10 := by
  refine ⟨?_, ?_, ?_, ?_, ?_, ?_, ?_, ?_, ?_, ?_⟩
  · intro a b hab
    unfold calculate_risk_reward_factor
    split_ifs <;>
      first
        | linarith
        | exact max_le_max le_rfl (by linarith)
        | (apply max_le <;> linarith)
  · intro r h; unfold calculate_risk_reward_factor
    split_ifs <;> first | rfl | linarith
  · intro r h1 h2; unfold calculate_risk_reward_factor
    split_ifs <;> first | rfl | linarith
  · intro r h1 h2; unfold calculate_risk_reward_factor
    split_ifs <;> first | rfl | linarith
  · intro r h1; unfold calculate_risk_reward_factor
    split_ifs <;> first | rfl | linarith
  · norm_num [calculate_risk_reward_factor]
  · norm_num [calculate_risk_reward_factor]
  · norm_num [calculate_risk_reward_factor]
  · norm_num [calculate_risk_reward_factor]
  · norm_num [calculate_risk_reward_factor]

/-- C8 witness: the monotone map evaluated across a boundary, via the
theorem itself. -/
theorem risk_reward_factor_spec_witness :
    calculate_risk_reward_factor (5/2) = 7 + ((5:ℚ)/2 - 2) * 3 ∧
      calculate_risk_reward_factor (3/2) ≤ calculate_risk_reward_factor (5/2) := by
  constructor
  · exact risk_reward_factor_spec.2.2.1 (5/2) (by norm_num) (by norm_num)
  · exact risk_reward_factor_spec.1 (by norm_num : (3:ℚ)/2 ≤ 5/2)

/-- C9 counterexample: the claim says any custom weight map whose values do
not sum to 1.0 within tolerance raises at construction; but Python's
`if weights:` is falsy for the empty dict, whose values sum to 0, so
construction succeeds and the default weights are silently installed. -/
theorem scorer_empty_weights_cex :
    1/100 < |((([] : List (String × ℚ)).map Prod.snd).sum) - 1|
    ∧ scorer_init_weights (some []) = Except.ok WEIGHTS := by
  constructor
  · norm_num
  · rfl

/-- C9 (amended): constructing a SignalScorer with a NON-EMPTY custom
weight map whose values do not sum to 1.0 within a 0.01 tolerance raises a
configuration error, and a non-empty map summing to 1.0 within tolerance
is accepted unchanged; the empty custom map is treated as absent (Python
falsiness) and silently replaced by the default weights. -/
theorem scorer_init_weights_spec (ws : List (String × ℚ)) (hne : ws ≠ []) :
    (1/100 < |(ws.map Prod.snd).sum - 1| →
      scorer_init_weights (some ws) = Except.error "Weights must sum to 1.0")
    ∧ (|(ws.map Prod.snd).sum - 1| ≤ 1/100 →
      scorer_init_weights (some ws) = Except.ok ws) := by
  simp only [scorer_init_weights]
  rw [if_neg (by simpa [List.isEmpty_iff] using hne)]
  constructor
  · intro h
    rw [if_pos h]
  · intro h
    rw [if_neg (not_lt.mpr h)]

/-- C9 witness: a singleton map summing to 0.9 is rejected with the
configuration error; one summing to 1.0 is accepted unchanged. -/
theorem scorer_init_weights_spec_witness :
    ([("probability_score", (9:ℚ)/10)] ≠ ([] : List (String × ℚ)))
    ∧ scorer_init_weights (some [("probability_score", (9:ℚ)/10)]) =
        Except.error "Weights must sum to 1.0"
    ∧ scorer_init_weights (some [("probability_score", (1:ℚ))]) =
        Except.ok [("probability_score", (1:ℚ))] := by
  refine ⟨by simp, ?_, ?_⟩
  · exact (scorer_init_weights_spec _ (by simp)).1 (by norm_num [abs_of_nonpos])
  · exact (scorer_init_weights_spec _ (by simp)).2 (by norm_num [abs_of_nonpos])

/-- C2: StrategyExecutor.execute yields a candidate iff the strategy is
active (the flag defaults to true when absent), its rule list is non-empty,
and every rule evaluates true (AND semantics); an inactive strategy or one
with zero rules yields none on every tick. -/
theorem execute_candidate_iff (st : Strategy) (md : MarketData) (hour : ℤ) :
    ((execute st md hour).isSome = true ↔
      (st.is_active.getD true = true ∧ st.rules ≠ [] ∧
        ∀ r ∈ st.rules, evaluate_single_rule r md hour = true))
    ∧ (st.is_active = some false → execute st md hour = none)
    ∧ (st.rules = [] → execute st md hour = none) := by
  have hrules : evaluate_rules st.rules md hour = true ↔
      (st.rules ≠ [] ∧ ∀ r ∈ st.rules, evaluate_single_rule r md hour = true) := by
    unfold evaluate_rules
    split_ifs with he
    · simp only [Bool.false_eq_true, false_iff]
      rintro ⟨hne, -⟩
      exact hne (List.isEmpty_iff.mp he)
    · rw [List.all_eq_true]
      constructor
      · intro hall
        exact ⟨fun hnil => he (by simp [hnil]), fun r hr => by simpa using hall r hr⟩
      · rintro ⟨-, hall⟩ r hr
        simpa using hall r hr
  constructor
  · unfold execute
    split_ifs with ha hr
    · simp only [Option.isSome_some, true_iff]
      exact ⟨ha, (hrules.mp hr).1, (hrules.mp hr).2⟩
    · simp only [Option.isSome_none, Bool.false_eq_true, false_iff]
      rintro ⟨-, hne, hall⟩
      exact hr (hrules.mpr ⟨hne, hall⟩)
    · simp only [Option.isSome_none, Bool.false_eq_true, false_iff]
      rintro ⟨hact, -, -⟩
      exact ha hact
  · constructor
    · intro hact
      unfold execute
      rw [if_pos (by simp [hact])]
    · intro hnil
      unfold execute
      split_ifs with ha hr
      · exact absurd (hrules.mp hr).1 (by simp [hnil])
      · rfl
      · rfl

/-- C2 witness: an inactive strategy and a zero-rule strategy both yield
none; a strategy whose single stubbed price-action rule passes yields a
candidate. -/
theorem execute_candidate_iff_witness :
    execute ⟨"s1", some false, [⟨some "price_action", some "order_block", []⟩], none, none⟩
        ⟨some "EURUSD", some 100, ⟨none, fun _ => none⟩⟩ 12 = none
    ∧ execute ⟨"s2", some true, [], none, none⟩
        ⟨some "EURUSD", some 100, ⟨none, fun _ => none⟩⟩ 12 = none
    ∧ (execute ⟨"s3", some true, [⟨some "price_action", some "order_block", []⟩], none, none⟩
        ⟨some "EURUSD", some 100, ⟨none, fun _ => none⟩⟩ 12).isSome = true := by
  refine ⟨?_, ?_, ?_⟩
  · exact (execute_candidate_iff _ _ _).2.1 rfl
  · exact (execute_candidate_iff _ _ _).2.2 rfl
  · exact (execute_candidate_iff _ _ _).1.mpr
      ⟨rfl, by simp, by intro r hr; simp at hr; subst hr; rfl⟩

/-- C6 counterexample: the claim says every rule whose (type, condition)
pair is not among the dispatched pairs evaluates false (fail-closed); but a
session rule whose session name is unknown to the sessions table — such as
('session', 'tokyo') — evaluates TRUE, and a strategy containing only that
rule produces a candidate. -/
theorem session_unknown_fail_open_cex :
    ("tokyo" ≠ "london" ∧ "tokyo" ≠ "new_york" ∧ "tokyo" ≠ "asia")
    ∧ evaluate_single_rule ⟨some "session", some "tokyo", []⟩
        ⟨some "EURUSD", some 100, ⟨none, fun _ => none⟩⟩ 12 = true
    ∧ (execute ⟨"s1", some true, [⟨some "session", some "tokyo", []⟩], none, none⟩
        ⟨some "EURUSD", some 100, ⟨none, fun _ => none⟩⟩ 12).isSome = true := by
  exact ⟨⟨by decide, by decide, by decide⟩, rfl, rfl⟩

/-- C6 (amended): a rule whose type is none of price_action / technical /
session, a price_action rule with an unknown condition, and a technical
rule with an unknown condition all evaluate false (fail-closed), and a
strategy containing such a rule never produces a candidate; but a session
rule with an unknown session name evaluates TRUE (fail-open) and therefore
never blocks a candidate by itself. -/
theorem evaluate_single_rule_dispatch_spec (r : Rule) (md : MarketData) (hour : ℤ) :
    (r.type ≠ some "price_action" → r.type ≠ some "technical" →
      r.type ≠ some "session" → evaluate_single_rule r md hour = false)
    ∧ (r.type = some "price_action" → r.condition ≠ some "liquidity_sweep" →
        r.condition ≠ some "order_block" → evaluate_single_rule r md hour = false)
    ∧ (r.type = some "technical" → r.condition ≠ some "rsi_oversold" →
        r.condition ≠ some "rsi_overbought" → r.condition ≠ some "above_ema" →
        evaluate_single_rule r md hour = false)
    ∧ (r.type = some "session" → r.condition ≠ some "london" →
        r.condition ≠ some "new_york" → r.condition ≠ some "asia" →
        evaluate_single_rule r md hour = true)
    ∧ (∀ st : Strategy, r ∈ st.rules → evaluate_single_rule r md hour = false →
        execute st md hour = none) := by
  refine ⟨?_, ?_, ?_, ?_, ?_⟩
  · intro h1 h2 h3
    unfold evaluate_single_rule
    split_ifs <;> simp_all
  · intro h1 h2 h3
    unfold evaluate_single_rule
    split_ifs <;> simp_all
  · intro h1 h2 h3 h4
    unfold evaluate_single_rule
    split_ifs <;> simp_all
  · intro h1 h2 h3 h4
    unfold evaluate_single_rule check_session
    split_ifs <;> simp_all
  · intro st hmem hfalse
    unfold execute
    rw [evaluate_rules_false_of_mem st.rules md hour r hmem hfalse]
    simp

/-- C6 witness: a technical rule with an unknown condition evaluates false
and blocks its strategy, via the amended theorem at a concrete input. -/
theorem evaluate_single_rule_dispatch_spec_witness :
    evaluate_single_rule ⟨some "technical", some "bogus", []⟩
        ⟨some "EURUSD", some 100, ⟨none, fun _ => none⟩⟩ 12 = false
    ∧ execute ⟨"s1", some true, [⟨some "technical", some "bogus", []⟩], none, none⟩
        ⟨some "EURUSD", some 100, ⟨none, fun _ => none⟩⟩ 12 = none := by
  constructor
  · exact (evaluate_single_rule_dispatch_spec ⟨some "technical", some "bogus", []⟩
      ⟨some "EURUSD", some 100, ⟨none, fun _ => none⟩⟩ 12).2.2.1 rfl
      (by decide) (by decide) (by decide)
  · exact (evaluate_single_rule_dispatch_spec ⟨some "technical", some "bogus", []⟩
      ⟨some "EURUSD", some 100, ⟨none, fun _ => none⟩⟩ 12).2.2.2.2 _ (by simp)
      ((evaluate_single_rule_dispatch_spec ⟨some "technical", some "bogus", []⟩
        ⟨some "EURUSD", some 100, ⟨none, fun _ => none⟩⟩ 12).2.2.1 rfl
        (by decide) (by decide) (by decide))

/-- C3: SignalScorer.calculate_signal_score always returns a value in
[0,10]: with all five weight keys present it is the weighted factor sum
clamped to [0,10] and rounded to one decimal, and an internal failure (a
missing weight key, the one failure reachable on well-typed numeric input)
returns the neutral 5.0 instead of propagating. -/
theorem calculate_signal_score_spec (weights : List (String × ℚ)) (p : ℚ)
    (metrics : List (String × ℚ)) (regime : String) (rperf : List (String × ℚ))
    (rr : ℚ) (cv ov : String) :
    (0 ≤ calculate_signal_score weights p metrics regime rperf rr cv ov ∧
      calculate_signal_score weights p metrics regime rperf rr cv ov ≤ 10)
    ∧ ((weights.lookup "probability_score" = none ∨
        weights.lookup "backtest_performance" = none ∨
        weights.lookup "market_regime_match" = none ∨
        weights.lookup "risk_reward_ratio" = none ∨
        weights.lookup "volatility_match" = none) →
       calculate_signal_score weights p metrics regime rperf rr cv ov = 5)
    ∧ (∀ w1 w2 w3 w4 w5 : ℚ,
        weights.lookup "probability_score" = some w1 →
        weights.lookup "backtest_performance" = some w2 →
        weights.lookup "market_regime_match" = some w3 →
        weights.lookup "risk_reward_ratio" = some w4 →
        weights.lookup "volatility_match" = some w5 →
        calculate_signal_score weights p metrics regime rperf rr cv ov =
          round1 (max 0 (min 10
            (p / 100 * 10 * w1 + calculate_performance_factor metrics * w2 +
             calculate_regime_factor regime rperf * w3 +
             calculate_risk_reward_factor rr * w4 +
             calculate_volatility_factor cv ov * w5)))) := by
  refine ⟨?_, ?_, ?_⟩
  · rcases hw1 : weights.lookup "probability_score" with - | w1 <;>
      rcases hw2 : weights.lookup "backtest_performance" with - | w2 <;>
      rcases hw3 : weights.lookup "market_regime_match" with - | w3 <;>
      rcases hw4 : weights.lookup "risk_reward_ratio" with - | w4 <;>
      rcases hw5 : weights.lookup "volatility_match" with - | w5 <;>
      simp only [calculate_signal_score, hw1, hw2, hw3, hw4, hw5] <;>
      first
        | exact round1_mem_0_10 _ (le_max_left _ _)
            (max_le (by norm_num) (min_le_left _ _))
        | exact ⟨by norm_num, by norm_num⟩
  · intro hnone
    rcases hw1 : weights.lookup "probability_score" with - | w1 <;>
      rcases hw2 : weights.lookup "backtest_performance" with - | w2 <;>
      rcases hw3 : weights.lookup "market_regime_match" with - | w3 <;>
      rcases hw4 : weights.lookup "risk_reward_ratio" with - | w4 <;>
      rcases hw5 : weights.lookup "volatility_match" with - | w5 <;>
      simp only [calculate_signal_score, hw1, hw2, hw3, hw4, hw5] <;>
      first
        | rfl
        | (simp only [hw1, hw2, hw3, hw4, hw5] at hnone; simp at hnone)
  · intro w1 w2 w3 w4 w5 h1 h2 h3 h4 h5
    simp only [calculate_signal_score, h1, h2, h3, h4, h5]

/-- C3 witness: the default weights have all five keys, giving the clamped
rounded weighted sum; the range bounds hold at a concrete input. -/
theorem calculate_signal_score_spec_witness :
    0 ≤ calculate_signal_score WEIGHTS 56 [("win_rate", 60), ("sharpe_ratio", 2),
        ("profit_factor", 2)] "unknown" pipeline_regime_performance 3 "normal" "normal"
    ∧ calculate_signal_score WEIGHTS 56 [("win_rate", 60), ("sharpe_ratio", 2),
        ("profit_factor", 2)] "unknown" pipeline_regime_performance 3 "normal" "normal" ≤ 10
    ∧ calculate_signal_score WEIGHTS 56 [("win_rate", 60), ("sharpe_ratio", 2),
        ("profit_factor", 2)] "unknown" pipeline_regime_performance 3 "normal" "normal" =
      round1 (max 0 (min 10
        ((56:ℚ) / 100 * 10 * (35/100) +
         calculate_performance_factor [("win_rate", 60), ("sharpe_ratio", 2),
           ("profit_factor", 2)] * (25/100) +
         calculate_regime_factor "unknown" pipeline_regime_performance * (20/100) +
         calculate_risk_reward_factor 3 * (15/100) +
         calculate_volatility_factor "normal" "normal" * (5/100)))) := by
  refine ⟨?_, ?_, ?_⟩
  · exact (calculate_signal_score_spec WEIGHTS 56 _ "unknown"
      pipeline_regime_performance 3 "normal" "normal").1.1
  · exact (calculate_signal_score_spec WEIGHTS 56 _ "unknown"
      pipeline_regime_performance 3 "normal" "normal").1.2
  · exact (calculate_signal_score_spec WEIGHTS 56 _ "unknown"
      pipeline_regime_performance 3 "normal" "normal").2.2 _ _ _ _ _ rfl rfl rfl rfl rfl

/-- C10: for any prior in [0,100] and any condition/performance inputs,
both likelihoods are clamped into [0.1, 0.9], so the marginal probability
of conditions is at least 0.1 and never zero; hence the degenerate-marginal
early return of the prior is unreachable and the posterior is the clamped
Bayes quotient. -/
theorem likelihood_clamp_marginal_spec (prior : ℚ) (c : MarketConditions)
    (h : HistoricalPerformance) (h0 : 0 ≤ prior) (h100 : prior ≤ 100) :
    (∀ outcome : String, 1/10 ≤ calculate_likelihood c h outcome ∧
        calculate_likelihood c h outcome ≤ 9/10)
    ∧ 1/10 ≤ calculate_likelihood c h "success" * (prior / 100) +
        calculate_likelihood c h "failure" * (1 - prior / 100)
    ∧ calculate_likelihood c h "success" * (prior / 100) +
        calculate_likelihood c h "failure" * (1 - prior / 100) ≠ 0
    ∧ calculate_posterior_probability prior c h =
        max 0 (min 100 (calculate_likelihood c h "success" * (prior / 100) /
          (calculate_likelihood c h "success" * (prior / 100) +
            calculate_likelihood c h "failure" * (1 - prior / 100)) * 100)) := by
  obtain ⟨hs1, hs9⟩ := calculate_likelihood_mem c h "success"
  obtain ⟨hf1, hf9⟩ := calculate_likelihood_mem c h "failure"
  have hp0 : 0 ≤ prior / 100 := by positivity
  have hp1 : prior / 100 ≤ 1 := (div_le_one (by norm_num)).mpr h100
  have hp1' : 0 ≤ 1 - prior / 100 := by linarith
  have hmarg : 1/10 ≤ calculate_likelihood c h "success" * (prior / 100) +
      calculate_likelihood c h "failure" * (1 - prior / 100) := by
    have a1 := mul_le_mul_of_nonneg_right hs1 hp0
    have a2 := mul_le_mul_of_nonneg_right hf1 hp1'
    linarith
  have hne : calculate_likelihood c h "success" * (prior / 100) +
      calculate_likelihood c h "failure" * (1 - prior / 100) ≠ 0 :=
    ne_of_gt (lt_of_lt_of_le (by norm_num) hmarg)
  refine ⟨fun outcome => calculate_likelihood_mem c h outcome, hmarg, hne, ?_⟩
  simp only [calculate_posterior_probability]
  rw [if_neg hne]

/-- C10 witness: the theorem applied at prior 50 with empty condition and
performance tables. -/
theorem likelihood_clamp_marginal_spec_witness :
    (0:ℚ) ≤ 50 ∧ (50:ℚ) ≤ 100 ∧
    calculate_posterior_probability 50 ⟨none, none⟩ ⟨[], none⟩ =
      max 0 (min 100 (calculate_likelihood ⟨none, none⟩ ⟨[], none⟩ "success" * (50 / 100) /
        (calculate_likelihood ⟨none, none⟩ ⟨[], none⟩ "success" * (50 / 100) +
          calculate_likelihood ⟨none, none⟩ ⟨[], none⟩ "failure" * (1 - 50 / 100)) * 100)) :=
  ⟨by norm_num, by norm_num,
    (likelihood_clamp_marginal_spec 50 ⟨none, none⟩ ⟨[], none⟩
      (by norm_num) (by norm_num)).2.2.2⟩

/-- C5 counterexample: the claim says the posterior exceeds the prior
whenever the regime's historical success rate exceeds the prior win rate
as a probability; with prior 30 and trending success rate 0.4 (> 0.3) the
failure likelihood defaults to 0.5 and the posterior drops BELOW the
prior. -/
theorem posterior_success_above_prior_cex :
    (30:ℚ) / 100 <
      lookupD (HistoricalPerformance.rates
        ⟨[("trending_success_rate", 2/5)], some "normal"⟩) "trending_success_rate" (1/2)
    ∧ calculate_posterior_probability 30 ⟨some "trending", some "normal"⟩
        ⟨[("trending_success_rate", 2/5)], some "normal"⟩ < 30 := by
  constructor
  · norm_num [lookupD, List.lookup]
  · have hs : calculate_likelihood ⟨some "trending", some "normal"⟩
        ⟨[("trending_success_rate", 2/5)], some "normal"⟩ "success"
        = max (1/10) (min (9/10) ((2:ℚ)/5 * (12/10))) := rfl
    have hf : calculate_likelihood ⟨some "trending", some "normal"⟩
        ⟨[("trending_success_rate", 2/5)], some "normal"⟩ "failure"
        = max (1/10) (min (9/10) ((1:ℚ)/2 * (12/10))) := rfl
    simp only [calculate_posterior_probability]
    rw [hs, hf]
    norm_num [max_def, min_def]

/-- C5 (amended): with 0 < prior < 100, the posterior exceeds the prior
whenever the condition-likelihood given success exceeds the
condition-likelihood given failure (after the volatility adjustment and
the [0.1,0.9] clamp); the regime success rate exceeding the prior does not
suffice for this.  The spec's example (prior 60, trending success rate
0.7, failure rate defaulting to 0.5) satisfies the likelihood condition
and gives a posterior above 60. -/
theorem posterior_exceeds_prior_of_likelihood (prior : ℚ) (c : MarketConditions)
    (h : HistoricalPerformance) (h0 : 0 < prior) (h100 : prior < 100)
    (hlik : calculate_likelihood c h "failure" < calculate_likelihood c h "success") :
    prior < calculate_posterior_probability prior c h := by
  obtain ⟨hs1, hs9⟩ := calculate_likelihood_mem c h "success"
  obtain ⟨hf1, hf9⟩ := calculate_likelihood_mem c h "failure"
  have hp0 : 0 < prior / 100 := by positivity
  have hp1 : prior / 100 < 1 := (div_lt_one (by norm_num)).mpr h100
  have hp1' : 0 < 1 - prior / 100 := by linarith
  have hmarg : 0 < calculate_likelihood c h "success" * (prior / 100) +
      calculate_likelihood c h "failure" * (1 - prior / 100) := by
    have a1 := mul_le_mul_of_nonneg_right hs1 (le_of_lt hp0)
    have a2 := mul_le_mul_of_nonneg_right hf1 (le_of_lt hp1')
    linarith
  simp only [calculate_posterior_probability]
  rw [if_neg (ne_of_gt hmarg)]
  set ls := calculate_likelihood c h "success" with hls
  set lf := calculate_likelihood c h "failure" with hlf
  have hkey : prior < ls * (prior / 100) / (ls * (prior / 100) + lf * (1 - prior / 100)) * 100 := by
    rw [div_mul_eq_mul_div, lt_div_iff hmarg]
    have hexp : ls * (prior / 100) * 100 -
        prior * (ls * (prior / 100) + lf * (1 - prior / 100)) =
        prior * (1 - prior / 100) * (ls - lf) := by ring
    have hpos : 0 < prior * (1 - prior / 100) * (ls - lf) :=
      mul_pos (mul_pos h0 hp1') (sub_pos.mpr hlik)
    linarith
  have h100' : prior < 100 := h100
  exact lt_max_iff.mpr (Or.inr (lt_min h100' hkey))

/-- C5 witness: the spec's own example — prior 60, the pipeline's
historical table (trending success rate 0.7, failure defaulting to 0.5,
matching volatility) — through the amended theorem. -/
theorem posterior_exceeds_prior_of_likelihood_witness :
    (0:ℚ) < 60 ∧ (60:ℚ) < 100 ∧
    calculate_likelihood ⟨some "trending", some "normal"⟩
        pipeline_historical_performance "failure" <
      calculate_likelihood ⟨some "trending", some "normal"⟩
        pipeline_historical_performance "success"
    ∧ 60 < calculate_posterior_probability 60 ⟨some "trending", some "normal"⟩
        pipeline_historical_performance := by
  have hlik : calculate_likelihood ⟨some "trending", some "normal"⟩
      pipeline_historical_performance "failure" <
      calculate_likelihood ⟨some "trending", some "normal"⟩
      pipeline_historical_performance "success" := by
    have hs : calculate_likelihood ⟨some "trending", some "normal"⟩
        pipeline_historical_performance "success"
        = max (1/10) (min (9/10) ((7:ℚ)/10 * (12/10))) := rfl
    have hf : calculate_likelihood ⟨some "trending", some "normal"⟩
        pipeline_historical_performance "failure"
        = max (1/10) (min (9/10) ((1:ℚ)/2 * (12/10))) := rfl
    rw [hs, hf]
    norm_num [max_def, min_def]
  exact ⟨by norm_num, by norm_num, hlik,
    posterior_exceeds_prior_of_likelihood 60 ⟨some "trending", some "normal"⟩
      pipeline_historical_performance (by norm_num) (by norm_num) hlik⟩

/-- C4: for a backtest win rate in [0,100] the pipeline's combined
probability equals round(0.6 × Bayesian posterior + 0.4 × Monte-Carlo
profit probability, 2 decimals) and lies in [0,100]. -/
theorem pipeline_calculate_probability_spec (b : BacktestResult)
    (md : Option MarketConditions) (caps : List ℚ) (n : ℕ)
    (h0 : 0 ≤ b.win_rate) (h100 : b.win_rate ≤ 100)
    (hlen : caps.length = n) (hn : 0 < n) :
    pipeline_calculate_probability b md caps n =
      round2 (calculate_posterior_probability b.win_rate (md.getD ⟨none, none⟩)
          pipeline_historical_performance * (6/10) +
        probability_of_profit caps 10000 n * (4/10))
    ∧ 0 ≤ pipeline_calculate_probability b md caps n
    ∧ pipeline_calculate_probability b md caps n ≤ 100 := by
  have heq : pipeline_calculate_probability b md caps n =
      round2 (calculate_posterior_probability b.win_rate (md.getD ⟨none, none⟩)
          pipeline_historical_performance * (6/10) +
        probability_of_profit caps 10000 n * (4/10)) := rfl
  have hb := calculate_posterior_probability_mem b.win_rate (md.getD ⟨none, none⟩)
    pipeline_historical_performance h0 h100
  have hm := probability_of_profit_mem caps 10000 n hlen hn
  have hq0 : (0:ℚ) ≤ calculate_posterior_probability b.win_rate (md.getD ⟨none, none⟩)
      pipeline_historical_performance * (6/10) +
      probability_of_profit caps 10000 n * (4/10) := by
    have := hb.1
    have := hm.1
    linarith
  have hq100 : calculate_posterior_probability b.win_rate (md.getD ⟨none, none⟩)
      pipeline_historical_performance * (6/10) +
      probability_of_profit caps 10000 n * (4/10) ≤ 100 := by
    have := hb.2
    have := hm.2
    linarith
  have hr := round2_bounds _ 0 100 (by exact_mod_cast hq0) (by exact_mod_cast hq100)
  refine ⟨heq, ?_, ?_⟩
  · rw [heq]
    exact_mod_cast hr.1
  · rw [heq]
    exact_mod_cast hr.2

/-- C4 witness: the theorem applied at a concrete backtest row (win rate
60) and a two-run Monte-Carlo oracle. -/
theorem pipeline_calculate_probability_spec_witness :
    (0:ℚ) ≤ BacktestResult.win_rate ⟨150, 60, 2, 10, 2⟩
    ∧ BacktestResult.win_rate ⟨150, 60, 2, 10, 2⟩ ≤ 100
    ∧ ([(20000:ℚ), 0].length = 2)
    ∧ 0 ≤ pipeline_calculate_probability ⟨150, 60, 2, 10, 2⟩ none [20000, 0] 2
    ∧ pipeline_calculate_probability ⟨150, 60, 2, 10, 2⟩ none [20000, 0] 2 ≤ 100 := by
  refine ⟨by norm_num, by norm_num, by simp, ?_, ?_⟩
  · exact (pipeline_calculate_probability_spec ⟨150, 60, 2, 10, 2⟩ none [20000, 0] 2
      (by norm_num) (by norm_num) (by simp) (by norm_num)).2.1
  · exact (pipeline_calculate_probability_spec ⟨150, 60, 2, 10, 2⟩ none [20000, 0] 2
      (by norm_num) (by norm_num) (by simp) (by norm_num)).2.2

/-- C1: SignalPipeline.generate_signal hands a Signal to storage only when
the backtest gate passed and the computed quality score and probability
are both at or above their configured minimums; a failed gate, a
too-low score or a too-low probability each force a None result (either
threshold alone vetoes). -/
theorem generate_signal_gate (s : Settings) (sid sym dir : String)
    (ep sl tp : ℚ) (md : Option MarketConditions) (srow : Option String)
    (brow : Option BacktestResult) (caps : List ℚ) (n : ℕ) (g : GeminiAnalysis) :
    (∀ sig : SignalData,
      generate_signal s sid sym dir ep sl tp md srow brow caps n g = some sig →
      ∃ b, brow = some b ∧ validate_backtest s b = true ∧
        s.MIN_SIGNAL_SCORE ≤ sig.signal_score ∧
        s.MIN_PROBABILITY ≤ sig.probability_score ∧
        sig.probability_score = pipeline_calculate_probability b md caps n ∧
        sig.signal_score = pipeline_calculate_signal_score
          (pipeline_calculate_probability b md caps n) b md
          (pipeline_risk_reward ep sl tp))
    ∧ (∀ b, brow = some b → validate_backtest s b = false →
        generate_signal s sid sym dir ep sl tp md srow brow caps n g = none)
    ∧ (∀ b, brow = some b →
        pipeline_calculate_signal_score (pipeline_calculate_probability b md caps n)
          b md (pipeline_risk_reward ep sl tp) < s.MIN_SIGNAL_SCORE →
        generate_signal s sid sym dir ep sl tp md srow brow caps n g = none)
    ∧ (∀ b, brow = some b →
        pipeline_calculate_probability b md caps n < s.MIN_PROBABILITY →
        generate_signal s sid sym dir ep sl tp md srow brow caps n g = none) := by
  cases srow with
  | none =>
    exact ⟨fun sig hsig => by simp [generate_signal] at hsig,
      fun b hb hv => rfl, fun b hb hs => rfl, fun b hb hp => rfl⟩
  | some sname =>
    cases brow with
    | none =>
      exact ⟨fun sig hsig => by simp [generate_signal] at hsig,
        fun b hb hv => absurd hb (by simp),
        fun b hb hs => absurd hb (by simp),
        fun b hb hp => absurd hb (by simp)⟩
    | some b0 =>
      by_cases hv : validate_backtest s b0 = true
      · refine ⟨?_, ?_, ?_, ?_⟩
        · intro sig hsig
          simp only [generate_signal] at hsig
          rw [if_neg (not_not_intro hv)] at hsig
          by_cases hscore : pipeline_calculate_signal_score
              (pipeline_calculate_probability b0 md caps n) b0 md
              (pipeline_risk_reward ep sl tp) < s.MIN_SIGNAL_SCORE
          · rw [if_pos hscore] at hsig
            cases hsig
          · rw [if_neg hscore] at hsig
            by_cases hprob : pipeline_calculate_probability b0 md caps n < s.MIN_PROBABILITY
            · rw [if_pos hprob] at hsig
              cases hsig
            · rw [if_neg hprob] at hsig
              obtain rfl := Option.some.inj hsig
              exact ⟨b0, rfl, hv, not_lt.mp hscore, not_lt.mp hprob, rfl, rfl⟩
        · intro b hb hvf
          obtain rfl := Option.some.inj hb
          rw [hvf] at hv
          exact absurd hv (by simp)
        · intro b hb hscore
          obtain rfl := Option.some.inj hb
          simp only [generate_signal]
          rw [if_neg (not_not_intro hv), if_pos hscore]
        · intro b hb hprob
          obtain rfl := Option.some.inj hb
          simp only [generate_signal]
          rw [if_neg (not_not_intro hv)]
          by_cases hscore : pipeline_calculate_signal_score
              (pipeline_calculate_probability b0 md caps n) b0 md
              (pipeline_risk_reward ep sl tp) < s.MIN_SIGNAL_SCORE
          · rw [if_pos hscore]
          · rw [if_neg hscore, if_pos hprob]
      · refine ⟨?_, ?_, ?_, ?_⟩
        · intro sig hsig
          simp only [generate_signal] at hsig
          rw [if_pos hv] at hsig
          cases hsig
        · intro b hb hvf
          simp only [generate_signal]
          rw [if_pos hv]
        · intro b hb hscore
          simp only [generate_signal]
          rw [if_pos hv]
        · intro b hb hprob
          simp only [generate_signal]
          rw [if_pos hv]

/-- C1 witness: at the default thresholds, a backtest row that passes the
gate but whose combined probability (56) falls below the 60 minimum makes
generate_signal return none (the probability threshold alone vetoes). -/
theorem generate_signal_gate_witness :
    validate_backtest {} ⟨150, 60, 2, 10, 2⟩ = true
    ∧ pipeline_calculate_probability ⟨150, 60, 2, 10, 2⟩ none [20000, 0] 2 = 56
    ∧ generate_signal {} "sid1" "EURUSD" "BUY" 100 98 106 none (some "strat")
        (some ⟨150, 60, 2, 10, 2⟩) [20000, 0] 2 ⟨"High", "Low", "ok", 1⟩ = none := by
  have hpost : calculate_posterior_probability 60 ⟨none, none⟩
      pipeline_historical_performance = 60 := by
    have hs : calculate_likelihood ⟨none, none⟩ pipeline_historical_performance "success"
        = max (1/10) (min (9/10) ((1:ℚ)/2 * (12/10))) := rfl
    have hf : calculate_likelihood ⟨none, none⟩ pipeline_historical_performance "failure"
        = max (1/10) (min (9/10) ((1:ℚ)/2 * (12/10))) := rfl
    simp only [calculate_posterior_probability]
    rw [hs, hf]
    norm_num [max_def, min_def]
  have hmc : probability_of_profit [20000, 0] 10000 2 = 50 := by
    norm_num [probability_of_profit, round2, roundHalfEven, Int.fract, round_eq,
      Int.even_iff, List.countP_cons, List.countP_nil]
  have hprob : pipeline_calculate_probability ⟨150, 60, 2, 10, 2⟩ none [20000, 0] 2 = 56 := by
    show round2 (calculate_posterior_probability 60 ⟨none, none⟩
        pipeline_historical_performance * (6/10) +
      probability_of_profit [20000, 0] 10000 2 * (4/10)) = 56
    rw [hpost, hmc]
    norm_num [round2, roundHalfEven, Int.fract, round_eq, Int.even_iff]
  refine ⟨by norm_num [validate_backtest], hprob, ?_⟩
  exact (generate_signal_gate {} "sid1" "EURUSD" "BUY" 100 98 106 none (some "strat")
    (some ⟨150, 60, 2, 10, 2⟩) [20000, 0] 2 ⟨"High", "Low", "ok", 1⟩).2.2.2
    ⟨150, 60, 2, 10, 2⟩ rfl (by rw [hprob]; norm_num)

end Tradeco
